import Mathlib

/-!
Shallow embedding of the SQL parser in `src/src/parser.rs` (repository
`kl4mm/sqlp2`), together with theorems settling the specification claims.

The parser consumes a token sequence produced by a tokeniser that lives in
another module (`crate::tokeniser`), which is not part of the sources; the
token and location types, and the concrete token sequences of the test
inputs, are therefore modelled from the specification (marked as such in
their doc comments).  Everything else is translated from `parser.rs`.

The Rust parser contains loops whose termination is exactly what some
claims are about (and at least one of them can in fact loop forever), so
all looping or recursive parsing functions take an explicit fuel
parameter and return a distinguished `outOfFuel` result when it runs out.
Divergence of the Rust code on an input is expressed as: for every fuel
the embedded function returns `outOfFuel`.  A `todo!()` in the Rust code
is embedded as the distinguished `panicked` result.
-/

namespace Sqlp

/-- Modelled from the spec: the closed enumeration of keyword tokens
produced by the tokeniser (`crate::tokeniser::Keyword`, not under
`src/`). -/
inductive Keyword where
  | Select | From | Where | Group | By | Order | Limit
  | And | Or | Not | Is | Null | Between | In | As
  | Create | Table | Insert | Update | Delete
  | Int | Varchar | True | False
deriving DecidableEq, Repr

/-- Modelled from the spec: the token type produced by the tokeniser
(`crate::tokeniser::Token`, not under `src/`): keywords, identifiers,
string/number literals, punctuation, comparison symbols and the
End-of-Input marker. -/
inductive Token where
  | Keyword (k : Keyword)
  | Ident (s : String)
  | NumberLiteral (s : String)
  | StringLiteral (s : String)
  | Eq | Neq | Lt | Le | Gt | Ge
  | Dot | Comma | LParen | RParen | Semicolon | Asterisk
  | Eof
deriving DecidableEq, Repr

/-- Modelled from the spec: a simple line/column source position used
only for diagnostics (`crate::tokeniser::Location`, not under
`src/`). -/
structure Location where
  line : Nat
  column : Nat
deriving DecidableEq, Repr

/-- Modelled from the spec: the `Default::default()` location used for
the End-of-Input token returned past the end of the sequence. -/
def Location.default : Location := ⟨0, 0⟩

/-- Modelled from the spec: a token paired with its source location
(`crate::tokeniser::TokenWithLocation`, not under `src/`). -/
structure TokenWithLocation where
  token : Token
  loc : Location
deriving DecidableEq, Repr

/-- `Value` from `parser.rs`: literal values kept as raw text. -/
inductive Value where
  | Number (s : String)
  | String (s : String)
  | Bool (b : Bool)
  | Null
deriving DecidableEq, Repr

/-- `Op` from `parser.rs`: the closed set of binary operators. -/
inductive Op where
  | Eq | Neq | Lt | Le | Gt | Ge | And | Or
deriving DecidableEq, Repr

/-- `Expr` from `parser.rs`. -/
inductive Expr where
  | Ident (s : String)
  | CompoundIdent (parts : List String)
  | Wildcard
  | QualifiedWildcard (parts : List String)
  | Value (v : Value)
  | IsNull (e : Expr)
  | IsNotNull (e : Expr)
  | InList (expr : Expr) (list : List Expr) (negated : Bool)
  | Between (expr : Expr) (negated : Bool) (low : Expr) (high : Expr)
  | BinaryOp (left : Expr) (op : Op) (right : Expr)
deriving Repr

/-- `OrderByExpr` from `parser.rs`. -/
structure OrderByExpr where
  expr : Expr
  desc : Bool
deriving Repr

/-- `SelectItem` from `parser.rs`. -/
inductive SelectItem where
  | Expr (e : Expr)
  | AliasedExpr (expr : Expr) (al : String)
  | QualifiedWildcard (parts : List String)
  | Wildcard
deriving Repr

mutual
/-- `Select` from `parser.rs` (mutually recursive with `FromTable`
through `joins` and derived tables). -/
inductive Select where
  | mk (projection : List SelectItem) (fromTable : FromTable)
      (joins : List Select) (filter : Option Expr) (group : List Expr)
      (order : OrderByExpr) (limit : Expr)

/-- `FromTable` from `parser.rs`. -/
inductive FromTable where
  | Table (name : List String) (al : Option String)
  | Derived (al : Option String) (select : Select)
end

/-- `Insert` from `parser.rs` (empty struct, body grammar out of scope). -/
structure Insert where
deriving DecidableEq, Repr

/-- `Update` from `parser.rs` (empty struct). -/
structure Update where
deriving DecidableEq, Repr

/-- `Delete` from `parser.rs` (empty struct). -/
structure Delete where
deriving DecidableEq, Repr

/-- `ColumnType` from `parser.rs`: `Int` or `Varchar(u16)`; the `u16`
is embedded as a `Nat` (the parse that produces it enforces the
`< 2 ^ 16` bound). -/
inductive ColumnType where
  | Int
  | Varchar (max : Nat)
deriving DecidableEq, Repr

/-- `ColumnDef` from `parser.rs` (field order `ty`, `name` as in the
source). -/
structure ColumnDef where
  ty : ColumnType
  name : String
deriving DecidableEq, Repr

/-- `Create` from `parser.rs`. -/
structure Create where
  name : String
  columns : List ColumnDef
deriving DecidableEq, Repr

/-- `Statement` from `parser.rs`. -/
inductive Statement where
  | Select (s : Sqlp.Select)
  | Insert (i : Sqlp.Insert)
  | Update (u : Sqlp.Update)
  | Delete (d : Sqlp.Delete)
  | Create (c : Sqlp.Create)

/-- `ParserError` from `parser.rs`. -/
inductive ParserError where
  | TokeniserError (s : String)
  | Unexpected (s : String)
deriving DecidableEq, Repr

/-- Modelled from the spec: the `Display` rendering of a `Location`
(implemented in the missing tokeniser module) as `line:column`. -/
def render_location (l : Location) : String :=
  Nat.repr l.line ++ ":" ++ Nat.repr l.column

/-- Modelled from the spec: the derived `Debug` rendering of a `Keyword`
(the tokeniser module derives `Debug`). -/
def debug_keyword : Keyword → String
  | .Select => "Select" | .From => "From" | .Where => "Where"
  | .Group => "Group" | .By => "By" | .Order => "Order"
  | .Limit => "Limit" | .And => "And" | .Or => "Or" | .Not => "Not"
  | .Is => "Is" | .Null => "Null" | .Between => "Between"
  | .In => "In" | .As => "As" | .Create => "Create"
  | .Table => "Table" | .Insert => "Insert" | .Update => "Update"
  | .Delete => "Delete" | .Int => "Int" | .Varchar => "Varchar"
  | .True => "True" | .False => "False"

/-- Modelled from the spec: the derived `Debug` rendering of a `Token`. -/
def debug_token : Token → String
  | .Keyword k => "Keyword(" ++ debug_keyword k ++ ")"
  | .Ident s => "Ident(" ++ ("\"" ++ s ++ "\"") ++ ")"
  | .NumberLiteral s => "NumberLiteral(" ++ ("\"" ++ s ++ "\"") ++ ")"
  | .StringLiteral s => "StringLiteral(" ++ ("\"" ++ s ++ "\"") ++ ")"
  | .Eq => "Eq" | .Neq => "Neq" | .Lt => "Lt" | .Le => "Le"
  | .Gt => "Gt" | .Ge => "Ge" | .Dot => "Dot" | .Comma => "Comma"
  | .LParen => "LParen" | .RParen => "RParen"
  | .Semicolon => "Semicolon" | .Asterisk => "Asterisk" | .Eof => "Eof"

/-- The `Unexpected(&Token, &Location)` error wrapper of `parser.rs`:
`From<Unexpected> for ParserError` renders
`"{location}: unexpected token {token:?}"`. -/
def unexpectedErr (tl : TokenWithLocation) : ParserError :=
  .Unexpected (render_location tl.loc ++ ": unexpected token " ++ debug_token tl.token)

/-- The parser state from `parser.rs`: the token sequence and the cursor
index. -/
structure Parser where
  tokens : List TokenWithLocation
  index : Nat
deriving DecidableEq, Repr

/-- `Parser::get`: out-of-bounds reads yield the `Eof` token at the
default location. -/
def Parser.get (p : Parser) (i : Nat) : TokenWithLocation :=
  p.tokens.getD i ⟨Token.Eof, Location.default⟩

/-- `Parser::peek_n`. -/
def Parser.peek_n (p : Parser) (n : Nat) : TokenWithLocation :=
  Parser.get p (p.index + n)

/-- `Parser::peek` (does not mutate the cursor: it is a pure function of
the state). -/
def Parser.peek (p : Parser) : TokenWithLocation :=
  Parser.peek_n p 0

/-- `Parser::next`: `self.index += 1; self.get(self.index - 1)` —
returns the token at the old position together with the advanced
state. -/
def Parser.next (p : Parser) : TokenWithLocation × Parser :=
  let p2 : Parser := { p with index := p.index + 1 }
  (Parser.get p2 (p2.index - 1), p2)

/-- Result of a fallible, state-mutating parsing function.  `ok` and
`err` carry the parser state after the call (in Rust the `&mut self`
mutations persist also when an `Err` is returned, and one call site
discards such an `Err` and keeps parsing).  `panicked` embeds a Rust
`todo!()` panic; `outOfFuel` marks fuel exhaustion of the embedding. -/
inductive PResult (α : Type) where
  | ok (a : α) (p : Parser)
  | err (e : ParserError) (p : Parser)
  | panicked
  | outOfFuel

/-- Whether a `PResult` is a success. -/
def PResult.isOk {α : Type} : PResult α → Bool
  | .ok _ _ => true
  | _ => false

/-- Inner loop of `Parser::check_tokens`: `index` is the position saved
on entry, restored on the first mismatch. -/
def check_tokens_go (index : Nat) (want : List Token) (p : Parser) : Bool × Parser :=
  match want with
  | [] => (true, p)
  | w :: rest =>
    if w == (Parser.peek p).token then
      check_tokens_go index rest (Parser.next p).2
    else
      (false, { p with index := index })

/-- `Parser::check_tokens`: advance past the expected tokens and return
`true` if they all match, otherwise walk back to the saved position and
return `false`. -/
def check_tokens (p : Parser) (want : List Token) : Bool × Parser :=
  check_tokens_go p.index want p

/-- Inner loop of `Parser::check_keywords`. -/
def check_keywords_go (index : Nat) (want : List Keyword) (p : Parser) : Bool × Parser :=
  match want with
  | [] => (true, p)
  | w :: rest =>
    match (Parser.peek p).token with
    | .Keyword hv =>
      if w == hv then
        check_keywords_go index rest (Parser.next p).2
      else
        (false, { p with index := index })
    | _ => (false, { p with index := index })

/-- `Parser::check_keywords`. -/
def check_keywords (p : Parser) (want : List Keyword) : Bool × Parser :=
  check_keywords_go p.index want p

/-- `Parser::parse_keywords`: require each keyword in turn, consuming
it; on a mismatch return `Unexpected` (the cursor stays where `next`
left it). -/
def parse_keywords (p : Parser) (want : List Keyword) : PResult Unit :=
  match want with
  | [] => .ok () p
  | w :: rest =>
    let (tl, p2) := Parser.next p
    match tl.token with
    | .Keyword hv =>
      if w == hv then parse_keywords p2 rest else .err (unexpectedErr tl) p2
    | _ => .err (unexpectedErr tl) p2

/-- `Parser::parse_tokens`. -/
def parse_tokens (p : Parser) (want : List Token) : PResult Unit :=
  match want with
  | [] => .ok () p
  | w :: rest =>
    let (tl, p2) := Parser.next p
    if w == tl.token then parse_tokens p2 rest else .err (unexpectedErr tl) p2

/-- `Parser::parse_value`. -/
def parse_value (p : Parser) : PResult Value :=
  let (tl, p2) := Parser.next p
  match tl.token with
  | .Keyword .False => .ok (.Bool false) p2
  | .Keyword .True => .ok (.Bool true) p2
  | .Keyword .Null => .ok .Null p2
  | .StringLiteral s => .ok (.String s) p2
  | .NumberLiteral n => .ok (.Number n) p2
  | _ => .err (unexpectedErr tl) p2

/-- `Parser::next_prec`: lookahead-only precedence of the next token
(`&self`, so it is a pure function of the state with no cursor
mutation).  For `NOT` it inspects one further token to disambiguate
`NOT BETWEEN` / `NOT IN`, failing on anything else. -/
def next_prec (p : Parser) : Except ParserError Nat :=
  let tl := Parser.peek p
  match tl.token with
  | .Eq | .Neq | .Lt | .Le | .Gt | .Ge => .ok 20
  | .Keyword .And => .ok 10
  | .Keyword .Or => .ok 5
  | .Keyword .Not =>
    let tl2 := Parser.peek_n p 1
    match tl2.token with
    | .Keyword .Between => .ok 20
    | .Keyword .In => .ok 20
    | _ => .error (unexpectedErr tl2)
  | .Keyword .Is => .ok 17
  | .Keyword .Between => .ok 20
  | .Keyword .In => .ok 20
  | _ => .ok 0

/-- Digit fold for `parse_u16`: rejects any non-digit character and any
prefix value that already exceeds the unsigned 16-bit range (appending
digits only grows the value, so this equals a final-value bound
check). -/
def parse_u16_go : List Char → Nat → Option Nat
  | [], acc => some acc
  | c :: rest, acc =>
    if 48 ≤ c.toNat && c.toNat ≤ 57 then
      let acc2 := acc * 10 + (c.toNat - 48)
      if acc2 < 65536 then parse_u16_go rest acc2 else none
    else none

/-- `str::parse::<u16>()` as used on the `VARCHAR` length literal:
succeeds exactly on non-empty digit-only strings (the shape the
tokeniser produces for a number literal) whose value fits in an
unsigned 16-bit integer. -/
def parse_u16 (s : String) : Option Nat :=
  match s.data with
  | [] => none
  | cs => parse_u16_go cs 0

/-- `Parser::parse_column_def`: an identifier (column name) followed by
a type token, where `VARCHAR` takes a parenthesized length literal
re-parsed as a `u16`. -/
def parse_column_def (p : Parser) : PResult ColumnDef :=
  let (tl, p) := Parser.next p
  match tl.token with
  | .Ident name =>
    let (tl2, p) := Parser.next p
    match tl2.token with
    | .Keyword .Int => .ok ⟨.Int, name⟩ p
    | .Keyword .Varchar =>
      match parse_tokens p [.LParen] with
      | .ok _ p =>
        let (tl3, p) := Parser.next p
        match tl3.token with
        | .NumberLiteral max =>
          match parse_u16 max with
          | some m =>
            match parse_tokens p [.RParen] with
            | .ok _ p => .ok ⟨.Varchar m, name⟩ p
            | .err e p => .err e p
            | .panicked => .panicked
            | .outOfFuel => .outOfFuel
          | none => .err (unexpectedErr tl3) p
        | _ => .err (unexpectedErr tl3) p
      | .err e p => .err e p
      | .panicked => .panicked
      | .outOfFuel => .outOfFuel
    | _ => .err (unexpectedErr tl2) p
  | _ => .err (unexpectedErr tl) p

mutual

/-- `Parser::parse_expr`: precedence climbing — parse a prefix term,
then fold infix continuations while the lookahead precedence is
strictly greater than `prec`. -/
def parse_expr (fuel : Nat) (p : Parser) (prec : Nat) : PResult Expr :=
  match fuel with
  | 0 => .outOfFuel
  | fuel + 1 =>
    match parse_prefix fuel p with
    | .ok expr p => parse_expr_loop fuel p expr prec
    | .err e p => .err e p
    | .panicked => .panicked
    | .outOfFuel => .outOfFuel

/-- The `loop` inside `Parser::parse_expr`. -/
def parse_expr_loop (fuel : Nat) (p : Parser) (expr : Expr) (prec : Nat) : PResult Expr :=
  match fuel with
  | 0 => .outOfFuel
  | fuel + 1 =>
    match next_prec p with
    | .error e => .err e p
    | .ok np =>
      if prec ≥ np then
        .ok expr p
      else
        match parse_infix fuel p expr np with
        | .ok expr p => parse_expr_loop fuel p expr prec
        | .err e p => .err e p
        | .panicked => .panicked
        | .outOfFuel => .outOfFuel

/-- `Parser::parse_prefix`: a literal value, an identifier possibly
extended to a 2–3 part compound identifier, or a parenthesized
sub-expression. -/
def parse_prefix (fuel : Nat) (p : Parser) : PResult Expr :=
  match fuel with
  | 0 => .outOfFuel
  | fuel + 1 =>
    let tl := Parser.peek p
    match tl.token with
    | .Keyword .False | .Keyword .True | .Keyword .Null
    | .StringLiteral _ | .NumberLiteral _ =>
      match parse_value p with
      | .ok v p => .ok (.Value v) p
      | .err e p => .err e p
      | .panicked => .panicked
      | .outOfFuel => .outOfFuel
    | .Ident a =>
      let p := (Parser.next p).2
      match check_tokens p [.Dot] with
      | (true, p) =>
        let parts := [a]
        let (tlb, p) := Parser.next p
        match tlb.token with
        | .Ident b =>
          let parts := parts ++ [b]
          match check_tokens p [.Dot] with
          | (true, p) =>
            let (tlc, p) := Parser.next p
            match tlc.token with
            | .Ident c => .ok (.CompoundIdent (parts ++ [c])) p
            | _ => .err (unexpectedErr tlc) p
          | (false, p) => .ok (.CompoundIdent parts) p
        | _ => .err (unexpectedErr tlb) p
      | (false, p) => .ok (.Ident a) p
    | .LParen =>
      let p := (Parser.next p).2
      match parse_expr fuel p 0 with
      | .ok expr p =>
        match parse_tokens p [.RParen] with
        | .ok _ p => .ok expr p
        | .err e p => .err e p
        | .panicked => .panicked
        | .outOfFuel => .outOfFuel
      | .err e p => .err e p
      | .panicked => .panicked
      | .outOfFuel => .outOfFuel
    | _ => .err (unexpectedErr tl) p

/-- `Parser::parse_infix`: consume the operator token; comparisons and
`AND`/`OR` build a `BinaryOp` whose right side is parsed at the
operator's precedence; `IS` is an unimplemented `todo!()`; for
`NOT`/`BETWEEN`/`IN` the token is pushed back one position, a fresh
check for `NOT` sets the negation flag, and the `BETWEEN`/`IN`
sub-parser is dispatched. -/
def parse_infix (fuel : Nat) (p : Parser) (expr : Expr) (prec : Nat) : PResult Expr :=
  match fuel with
  | 0 => .outOfFuel
  | fuel + 1 =>
    let (tl, p) := Parser.next p
    let op : Option Op :=
      match tl.token with
      | .Keyword .And => some .And
      | .Keyword .Or => some .Or
      | .Keyword _ => none
      | .Eq => some .Eq
      | .Neq => some .Neq
      | .Lt => some .Lt
      | .Le => some .Le
      | .Gt => some .Gt
      | .Ge => some .Ge
      | _ => none
    match op with
    | some op =>
      match parse_expr fuel p prec with
      | .ok right p => .ok (.BinaryOp expr op right) p
      | .err e p => .err e p
      | .panicked => .panicked
      | .outOfFuel => .outOfFuel
    | none =>
      match tl.token with
      | .Keyword .Is => .panicked
      | .Keyword .Not | .Keyword .Between | .Keyword .In =>
        let p : Parser := { p with index := p.index - 1 }
        let (negated, p) := check_keywords p [.Not]
        match check_keywords p [.Between] with
        | (true, p) => parse_between fuel p expr negated
        | (false, p) =>
          match check_keywords p [.In] with
          | (true, p) => parse_in fuel p expr negated
          | (false, p) => .err (unexpectedErr tl) p
      | _ => .err (unexpectedErr tl) p

/-- `Parser::parse_between`: low bound at precedence 20, require `AND`,
high bound at precedence 20; the node carries the negation flag. -/
def parse_between (fuel : Nat) (p : Parser) (expr : Expr) (negated : Bool) : PResult Expr :=
  match fuel with
  | 0 => .outOfFuel
  | fuel + 1 =>
    match parse_expr fuel p 20 with
    | .ok low p =>
      match parse_keywords p [.And] with
      | .ok _ p =>
        match parse_expr fuel p 20 with
        | .ok high p => .ok (.Between expr negated low high) p
        | .err e p => .err e p
        | .panicked => .panicked
        | .outOfFuel => .outOfFuel
      | .err e p => .err e p
      | .panicked => .panicked
      | .outOfFuel => .outOfFuel
    | .err e p => .err e p
    | .panicked => .panicked
    | .outOfFuel => .outOfFuel

/-- `Parser::parse_in`: require `(`, a comma-separated non-empty list of
expressions at precedence 0, require `)`; the node carries the negation
flag. -/
def parse_in (fuel : Nat) (p : Parser) (expr : Expr) (negated : Bool) : PResult Expr :=
  match fuel with
  | 0 => .outOfFuel
  | fuel + 1 =>
    match parse_tokens p [.LParen] with
    | .ok _ p =>
      match parse_in_list fuel p [] with
      | .ok list p =>
        match parse_tokens p [.RParen] with
        | .ok _ p => .ok (.InList expr list negated) p
        | .err e p => .err e p
        | .panicked => .panicked
        | .outOfFuel => .outOfFuel
      | .err e p => .err e p
      | .panicked => .panicked
      | .outOfFuel => .outOfFuel
    | .err e p => .err e p
    | .panicked => .panicked
    | .outOfFuel => .outOfFuel

/-- The `while { list.push(...); check_tokens(Comma) }` loop inside
`Parser::parse_in`. -/
def parse_in_list (fuel : Nat) (p : Parser) (acc : List Expr) : PResult (List Expr) :=
  match fuel with
  | 0 => .outOfFuel
  | fuel + 1 =>
    match parse_expr fuel p 0 with
    | .ok e p =>
      match check_tokens p [.Comma] with
      | (true, p) => parse_in_list fuel p (acc ++ [e])
      | (false, p) => .ok (acc ++ [e]) p
    | .err e p => .err e p
    | .panicked => .panicked
    | .outOfFuel => .outOfFuel

end

/-- `Parser::parse_select_item`: first a speculative attempt at the
wildcard / qualified-wildcard shapes; every non-wildcard outcome of the
attempt falls through to `self.index = index` (reset to the position
saved on entry) followed by full expression parsing with an optional
`AS <alias>` — except that a non-identifier, non-asterisk token after a
dot is a hard `Unexpected` failure. -/
def parse_select_item (fuel : Nat) (p : Parser) : PResult SelectItem :=
  let index := p.index
  let fallthrough : Parser → PResult SelectItem := fun p =>
    let p : Parser := { p with index := index }
    match parse_expr fuel p 0 with
    | .ok expr p =>
      match check_keywords p [.As] with
      | (true, p) =>
        let (tl, p) := Parser.next p
        match tl.token with
        | .Ident al => .ok (.AliasedExpr expr al) p
        | _ => .err (unexpectedErr tl) p
      | (false, p) => .ok (.Expr expr) p
    | .err e p => .err e p
    | .panicked => .panicked
    | .outOfFuel => .outOfFuel
  let (tl, p) := Parser.next p
  match tl.token with
  | .Asterisk => .ok .Wildcard p
  | .Ident a =>
    match check_tokens p [.Dot] with
    | (true, p) =>
      let parts := [a]
      let (tlb, p) := Parser.next p
      match tlb.token with
      | .Ident b =>
        let parts := parts ++ [b]
        match check_tokens p [.Dot] with
        | (true, p) =>
          let (tlc, p) := Parser.next p
          match tlc.token with
          | .Ident _ => fallthrough p
          | .Asterisk => .ok (.QualifiedWildcard parts) p
          | _ => .err (unexpectedErr tlc) p
        | (false, p) => fallthrough p
      | .Asterisk => .ok (.QualifiedWildcard parts) p
      | _ => .err (unexpectedErr tlb) p
    | (false, p) => fallthrough p
  | _ => fallthrough p

/-- The `while { items.push(...); check_tokens(Comma) }` loop inside
`Parser::parse_projection`. -/
def parse_projection_loop (fuel : Nat) (p : Parser) (acc : List SelectItem) : PResult (List SelectItem) :=
  match fuel with
  | 0 => .outOfFuel
  | fuel + 1 =>
    match parse_select_item fuel p with
    | .ok item p =>
      match check_tokens p [.Comma] with
      | (true, p) => parse_projection_loop fuel p (acc ++ [item])
      | (false, p) => .ok (acc ++ [item]) p
    | .err e p => .err e p
    | .panicked => .panicked
    | .outOfFuel => .outOfFuel

/-- `Parser::parse_projection`: comma-separated list of select items. -/
def parse_projection (fuel : Nat) (p : Parser) : PResult (List SelectItem) :=
  parse_projection_loop fuel p []

/-- Continuation of `Parser::parse_select` after the discarded
projection `Result`: `FROM` is required, the clause keywords are probed
for their side effect only, and all fields of the returned `Select` are
`todo!()`. -/
def parse_select_rest (p : Parser) : PResult Select :=
  match parse_keywords p [.From] with
  | .ok _ p =>
    let (_, p) := check_keywords p [.Where]
    let (_, p) := check_keywords p [.Group, .By]
    let (_, p) := check_keywords p [.Order, .By]
    let (_, p) := check_keywords p [.Limit]
    let _ := p
    .panicked
  | .err e p => .err e p
  | .panicked => .panicked
  | .outOfFuel => .outOfFuel

/-- `Parser::parse_select`: consumes `SELECT`, parses the projection
list but binds the `Result` without checking it (the cursor mutations
persist either way), requires `FROM`, probes for the optional clause
keywords, and then hits `todo!()` while constructing the `Select`
value — so it can never succeed. -/
def parse_select (fuel : Nat) (p : Parser) : PResult Select :=
  match parse_keywords p [.Select] with
  | .ok _ p =>
    match parse_projection fuel p with
    | .panicked => .panicked
    | .outOfFuel => .outOfFuel
    | .ok _projection p => parse_select_rest p
    | .err _e p => parse_select_rest p
  | .err e p => .err e p
  | .panicked => .panicked
  | .outOfFuel => .outOfFuel

/-- `Parser::parse_insert`: recognition only — returns `Ok(Insert {})`
without consuming any token. -/
def parse_insert (p : Parser) : PResult Insert :=
  .ok ⟨⟩ p

/-- `Parser::parse_update`: recognition only. -/
def parse_update (p : Parser) : PResult Update :=
  .ok ⟨⟩ p

/-- `Parser::parse_delete`: recognition only. -/
def parse_delete (p : Parser) : PResult Delete :=
  .ok ⟨⟩ p

/-- The `while { columns.push(...); check_tokens(Comma) }` loop inside
`Parser::parse_create`. -/
def parse_create_loop (fuel : Nat) (p : Parser) (acc : List ColumnDef) : PResult (List ColumnDef) :=
  match fuel with
  | 0 => .outOfFuel
  | fuel + 1 =>
    match parse_column_def p with
    | .ok col p =>
      match check_tokens p [.Comma] with
      | (true, p) => parse_create_loop fuel p (acc ++ [col])
      | (false, p) => .ok (acc ++ [col]) p
    | .err e p => .err e p
    | .panicked => .panicked
    | .outOfFuel => .outOfFuel

/-- `Parser::parse_create`: `CREATE TABLE`, an identifier, then a
parenthesized comma-separated list of column definitions. -/
def parse_create (fuel : Nat) (p : Parser) : PResult Create :=
  match parse_keywords p [.Create, .Table] with
  | .ok _ p =>
    let (tl, p) := Parser.next p
    match tl.token with
    | .Ident name =>
      match parse_tokens p [.LParen] with
      | .ok _ p =>
        match parse_create_loop fuel p [] with
        | .ok columns p =>
          match parse_tokens p [.RParen] with
          | .ok _ p => .ok ⟨name, columns⟩ p
          | .err e p => .err e p
          | .panicked => .panicked
          | .outOfFuel => .outOfFuel
        | .err e p => .err e p
        | .panicked => .panicked
        | .outOfFuel => .outOfFuel
      | .err e p => .err e p
      | .panicked => .panicked
      | .outOfFuel => .outOfFuel
    | _ => .err (unexpectedErr tl) p
  | .err e p => .err e p
  | .panicked => .panicked
  | .outOfFuel => .outOfFuel

/-- The `loop` inside `Parser::parse`: the next token is only PEEKED;
statement keywords dispatch to the statement parsers, `Semicolon`
`continue`s (without consuming the semicolon!), `Eof` breaks, anything
else is an `Unexpected` failure. -/
def parse_loop (fuel : Nat) (p : Parser) (statements : List Statement) : PResult (List Statement) :=
  match fuel with
  | 0 => .outOfFuel
  | fuel + 1 =>
    let tl := Parser.peek p
    match tl.token with
    | .Keyword .Select =>
      match parse_select fuel p with
      | .ok s p => parse_loop fuel p (statements ++ [.Select s])
      | .err e p => .err e p
      | .panicked => .panicked
      | .outOfFuel => .outOfFuel
    | .Keyword .Insert =>
      match parse_insert p with
      | .ok s p => parse_loop fuel p (statements ++ [.Insert s])
      | .err e p => .err e p
      | .panicked => .panicked
      | .outOfFuel => .outOfFuel
    | .Keyword .Update =>
      match parse_update p with
      | .ok s p => parse_loop fuel p (statements ++ [.Update s])
      | .err e p => .err e p
      | .panicked => .panicked
      | .outOfFuel => .outOfFuel
    | .Keyword .Delete =>
      match parse_delete p with
      | .ok s p => parse_loop fuel p (statements ++ [.Delete s])
      | .err e p => .err e p
      | .panicked => .panicked
      | .outOfFuel => .outOfFuel
    | .Keyword .Create =>
      match parse_create fuel p with
      | .ok s p => parse_loop fuel p (statements ++ [.Create s])
      | .err e p => .err e p
      | .panicked => .panicked
      | .outOfFuel => .outOfFuel
    | .Keyword _ => .err (unexpectedErr tl) p
    | .Semicolon => parse_loop fuel p statements
    | .Eof => .ok statements p
    | _ => .err (unexpectedErr tl) p

/-- `Parser::parse`: the top-level statement loop, starting from an
empty statement list. -/
def parse (fuel : Nat) (p : Parser) : PResult (List Statement) :=
  parse_loop fuel p []

/-! ### Token sequences of the concrete inputs

The tokeniser that turns source text into located tokens is not part of
the sources, so the token sequences of the concrete test inputs are
modelled from the spec's description of the lexical classes.  Where an
error message will surface a location, column positions are the
character offsets in the source text (line 0); elsewhere the locations
are irrelevant and left at the default. -/

/-- Modelled from the spec: tokenisation of the input consisting of the
single statement separator `;`. -/
def toks_semicolon : List TokenWithLocation :=
  [⟨.Semicolon, Location.default⟩]

/-- Modelled from the spec: tokenisation of the input `INSERT`. -/
def toks_insert : List TokenWithLocation :=
  [⟨.Keyword .Insert, Location.default⟩]

/-- Modelled from the spec: tokenisation of the input `SELECT`. -/
def toks_select : List TokenWithLocation :=
  [⟨.Keyword .Select, Location.default⟩]

/-- The statement separator that is never consumed by `Parser::parse`'s
`Token::Semicolon => continue` arm: the loop peeks the same semicolon
again on every iteration, so for every fuel the embedding runs out. -/
theorem parse_semicolon_diverges_aux :
    ∀ (fuel : Nat) (acc : List Statement),
      parse_loop fuel ⟨toks_semicolon, 0⟩ acc = PResult.outOfFuel := by
  intro fuel
  induction fuel with
  | zero => intro acc; rfl
  | succ n ih =>
    intro acc
    exact ih acc

/-- C1: the claim says `parse()` returns `Ok` with an empty statement
sequence on every whitespace/semicolon-only input.  The whitespace-only
case holds (second conjunct: the empty token sequence yields `Ok([])`),
but on the single-semicolon input the `Token::Semicolon => continue`
arm never consumes the peeked semicolon, so `parse()` loops forever
(first conjunct: the embedding returns `outOfFuel` for every fuel). -/
theorem c1_semicolon_input (fuel : Nat) :
    parse fuel ⟨toks_semicolon, 0⟩ = PResult.outOfFuel ∧
      parse (fuel + 1) ⟨[], 0⟩ = PResult.ok [] ⟨[], 0⟩ :=
  ⟨parse_semicolon_diverges_aux fuel [], rfl⟩

/-- The `INSERT` keyword is never consumed either: `parse_insert`
returns `Ok(Insert {})` without advancing, so the statement loop pushes
`Insert` statements forever. -/
theorem parse_insert_diverges_aux :
    ∀ (fuel : Nat) (acc : List Statement),
      parse_loop fuel ⟨toks_insert, 0⟩ acc = PResult.outOfFuel := by
  intro fuel
  induction fuel with
  | zero => intro acc; rfl
  | succ n ih =>
    intro acc
    exact ih (acc ++ [Statement.Insert ⟨⟩])

/-- C2: the claim says parsing a bounded token sequence always
terminates.  It does not: on the one-token sequence `INSERT` the
statement loop calls `parse_insert`, which consumes nothing, and loops
forever pushing `Insert` statements (for every fuel the embedding
returns `outOfFuel`); the unconsumed `;` of `c1_semicolon_input` is a
second non-terminating path. -/
theorem c2_parse_nontermination (fuel : Nat) :
    parse fuel ⟨toks_insert, 0⟩ = PResult.outOfFuel :=
  parse_insert_diverges_aux fuel []

/-- `parse_select_rest` can only fail or panic: when the `FROM` keyword
requirement succeeds, construction of the `Select` value hits
`todo!()`. -/
theorem parse_select_rest_not_ok (p : Parser) :
    PResult.isOk (parse_select_rest p) = false := by
  unfold parse_select_rest
  cases parse_keywords p [.From] <;> rfl

/-- `parse_select` never succeeds: every path either returns an error
or reaches the `todo!()` fields of the `Select` constructor. -/
theorem parse_select_not_ok (fuel : Nat) (p : Parser) :
    PResult.isOk (parse_select fuel p) = false := by
  unfold parse_select
  cases parse_keywords p [.Select] with
  | ok a p1 =>
    dsimp only
    cases parse_projection fuel p1 with
    | ok x p2 => exact parse_select_rest_not_ok p2
    | err e p2 => exact parse_select_rest_not_ok p2
    | panicked => rfl
    | outOfFuel => rfl
  | err e p1 => rfl
  | panicked => rfl
  | outOfFuel => rfl

/-- C3 counterexample: the claim says every input whose first token is
`SELECT` panics and never yields a `ParserError`; but on the input
`SELECT` (no projection, no `FROM`) the discarded projection parse
fails, and then the required `FROM` keyword is not found, so `parse()`
returns an `Unexpected` error — not a panic. -/
theorem c3_select_counterexample :
    parse 9 ⟨toks_select, 0⟩ =
      PResult.err (.Unexpected ("0:0: unexpected token Eof")) ⟨toks_select, 2⟩ := rfl

/-- C3 (amended): for every input whose first token is the `SELECT`
keyword, `parse()` never returns a statement list: it either panics via
the `todo!()` stub when constructing the `Select` value (the projection
`Result` having been discarded without being checked) or returns a
`ParserError` from a failed keyword requirement. -/
theorem c3_select_never_ok (fuel : Nat) (p : Parser)
    (h : (Parser.peek p).token = Token.Keyword Keyword.Select) :
    PResult.isOk (parse fuel p) = false := by
  cases fuel with
  | zero => rfl
  | succ n =>
    show PResult.isOk (parse_loop (n + 1) p []) = false
    rw [parse_loop]
    rw [h]
    cases hps : parse_select n p with
    | ok s p2 =>
      have hno := parse_select_not_ok n p
      rw [hps] at hno
      exact absurd hno (by simp [PResult.isOk])
    | err e p2 => rfl
    | panicked => rfl
    | outOfFuel => rfl

/-- Witness for C3 (amended) at the concrete input `SELECT`. -/
theorem c3_select_never_ok_witness :
    PResult.isOk (parse 5 ⟨toks_select, 0⟩) = false :=
  c3_select_never_ok 5 ⟨toks_select, 0⟩ rfl

/-- The tokens the precedence table maps to zero: everything other than
the six comparison symbols and the `AND`/`OR`/`NOT`/`IS`/`BETWEEN`/`IN`
keywords. -/
def prec_zero : Token → Bool
  | .Eq | .Neq | .Lt | .Le | .Gt | .Ge => false
  | .Keyword .And | .Keyword .Or | .Keyword .Not
  | .Keyword .Is | .Keyword .Between | .Keyword .In => false
  | _ => true

/-- C4: the lookahead precedence function assigns 20 to the comparison
tokens, 20 to `BETWEEN` and `IN`, 20 to `NOT` followed by `BETWEEN` or
`IN`, 17 to `IS`, 10 to `AND`, 5 to `OR`, and 0 to every other token;
and it fails with an unexpected-token error (carrying the second
lookahead token) when `NOT` is followed by neither `BETWEEN` nor
`IN`. -/
theorem c4_next_prec_table (p : Parser) :
    ((Parser.peek p).token = Token.Eq ∨ (Parser.peek p).token = Token.Neq ∨
        (Parser.peek p).token = Token.Lt ∨ (Parser.peek p).token = Token.Le ∨
        (Parser.peek p).token = Token.Gt ∨ (Parser.peek p).token = Token.Ge →
      next_prec p = Except.ok 20) ∧
    ((Parser.peek p).token = Token.Keyword Keyword.Between ∨
        (Parser.peek p).token = Token.Keyword Keyword.In →
      next_prec p = Except.ok 20) ∧
    ((Parser.peek p).token = Token.Keyword Keyword.Not →
      ((Parser.peek_n p 1).token = Token.Keyword Keyword.Between ∨
        (Parser.peek_n p 1).token = Token.Keyword Keyword.In) →
      next_prec p = Except.ok 20) ∧
    ((Parser.peek p).token = Token.Keyword Keyword.Is →
      next_prec p = Except.ok 17) ∧
    ((Parser.peek p).token = Token.Keyword Keyword.And →
      next_prec p = Except.ok 10) ∧
    ((Parser.peek p).token = Token.Keyword Keyword.Or →
      next_prec p = Except.ok 5) ∧
    (prec_zero (Parser.peek p).token = true → next_prec p = Except.ok 0) ∧
    ((Parser.peek p).token = Token.Keyword Keyword.Not →
      (Parser.peek_n p 1).token ≠ Token.Keyword Keyword.Between →
      (Parser.peek_n p 1).token ≠ Token.Keyword Keyword.In →
      next_prec p = Except.error (unexpectedErr (Parser.peek_n p 1))) := by
  refine ⟨?_, ?_, ?_, ?_, ?_, ?_, ?_, ?_⟩
  · rintro (h | h | h | h | h | h) <;> simp [next_prec, h]
  · rintro (h | h) <;> simp [next_prec, h]
  · rintro h (h2 | h2) <;> simp [next_prec, h, h2]
  · intro h; simp [next_prec, h]
  · intro h; simp [next_prec, h]
  · intro h; simp [next_prec, h]
  · intro h
    cases ht : (Parser.peek p).token
    case Keyword k => cases k <;> simp_all [next_prec, prec_zero]
    all_goals simp_all [next_prec, prec_zero]
  · intro h h2 h3
    cases ht2 : (Parser.peek_n p 1).token
    case Keyword k =>
      cases k <;>
        first
          | exact absurd ht2 h2
          | exact absurd ht2 h3
          | simp_all [next_prec]
    all_goals simp_all [next_prec]

/-- Witness for C4 at concrete one/two-token states: a comparison
(`<=`), `NOT IN`, `NOT` followed by an identifier (the failure case),
and `Eof` (a zero-precedence token). -/
theorem c4_next_prec_table_witness :
    next_prec ⟨[⟨.Le, Location.default⟩], 0⟩ = Except.ok 20 ∧
    next_prec ⟨[⟨.Keyword .Not, Location.default⟩, ⟨.Keyword .In, Location.default⟩], 0⟩ =
      Except.ok 20 ∧
    next_prec ⟨[⟨.Keyword .Not, Location.default⟩, ⟨.Ident ("x"), Location.default⟩], 0⟩ =
      Except.error (unexpectedErr ⟨.Ident ("x"), Location.default⟩) ∧
    next_prec ⟨[⟨.Eof, Location.default⟩], 0⟩ = Except.ok 0 :=
  ⟨(c4_next_prec_table _).1 (Or.inr (Or.inr (Or.inr (Or.inl rfl)))),
   (c4_next_prec_table _).2.2.1 rfl (Or.inr rfl),
   (c4_next_prec_table _).2.2.2.2.2.2.2 rfl (by decide) (by decide),
   (c4_next_prec_table _).2.2.2.2.2.2.1 rfl⟩

/-- C10: every read at or past the end of the token sequence yields the
`Eof` token at the default location — `get` for any index past the
real sequence, `peek`/`peek_n` for any offset once the cursor is past
the end, and `next` likewise (still advancing the cursor by exactly
one); no out-of-bounds failure exists, and `peek`/`peek_n` are pure
functions of the state (they return no updated parser at all, so they
cannot mutate the cursor). -/
theorem c10_past_end_reads (p : Parser) (i n : Nat)
    (hi : p.tokens.length ≤ i) (hx : p.tokens.length ≤ p.index) :
    Parser.get p i = ⟨Token.Eof, Location.default⟩ ∧
    Parser.peek_n p n = ⟨Token.Eof, Location.default⟩ ∧
    Parser.peek p = ⟨Token.Eof, Location.default⟩ ∧
    (Parser.next p).1 = ⟨Token.Eof, Location.default⟩ ∧
    (Parser.next p).2 = { p with index := p.index + 1 } := by
  have hget : ∀ j, p.tokens.length ≤ j →
      Parser.get p j = ⟨Token.Eof, Location.default⟩ := by
    intro j hj
    exact List.getD_eq_default _ _ hj
  refine ⟨hget i hi, ?_, ?_, ?_, rfl⟩
  · exact hget (p.index + n) (Nat.le_trans hx (Nat.le_add_right _ _))
  · exact hget (p.index + 0) (Nat.le_trans hx (Nat.le_add_right _ _))
  · show Parser.get { p with index := p.index + 1 } (p.index + 1 - 1) = _
    exact hget p.index hx

/-- Witness for C10 at a concrete empty token sequence. -/
theorem c10_past_end_reads_witness :
    Parser.get ⟨[], 0⟩ 3 = ⟨Token.Eof, Location.default⟩ ∧
    Parser.peek_n ⟨[], 0⟩ 1 = ⟨Token.Eof, Location.default⟩ ∧
    Parser.peek ⟨[], 0⟩ = ⟨Token.Eof, Location.default⟩ ∧
    (Parser.next ⟨[], 0⟩).1 = ⟨Token.Eof, Location.default⟩ ∧
    (Parser.next ⟨[], 0⟩).2 = ⟨[], 1⟩ :=
  c10_past_end_reads ⟨[], 0⟩ 3 1 (Nat.zero_le _) (Nat.zero_le _)

/-- Modelled from the spec: tokenisation of
`c1 < 5 and c2 in (1, "2", 3, "4")`. -/
def toks_in_expr : List TokenWithLocation :=
  [⟨.Ident ("c1"), Location.default⟩, ⟨.Lt, Location.default⟩,
   ⟨.NumberLiteral ("5"), Location.default⟩, ⟨.Keyword .And, Location.default⟩,
   ⟨.Ident ("c2"), Location.default⟩, ⟨.Keyword .In, Location.default⟩,
   ⟨.LParen, Location.default⟩, ⟨.NumberLiteral ("1"), Location.default⟩,
   ⟨.Comma, Location.default⟩, ⟨.StringLiteral ("2"), Location.default⟩,
   ⟨.Comma, Location.default⟩, ⟨.NumberLiteral ("3"), Location.default⟩,
   ⟨.Comma, Location.default⟩, ⟨.StringLiteral ("4"), Location.default⟩,
   ⟨.RParen, Location.default⟩]

/-- C5: parsing `c1 < 5 and c2 in (1, "2", 3, "4")` at minimum
precedence 0 yields the `And` node with left side `c1 < Number("5")`
and right side an `InList` with `negated = false` and the four literal
elements in source order (first conjunct); the second conjunct runs the
`IN` sub-parser itself from just after the consumed `IN` keyword
(cursor 6) with probe `c2` and negation flag `false`. -/
theorem c5_in_list_expr :
    parse_expr 32 ⟨toks_in_expr, 0⟩ 0 =
      PResult.ok
        (.BinaryOp
          (.BinaryOp (.Ident ("c1")) .Lt (.Value (.Number ("5"))))
          .And
          (.InList (.Ident ("c2"))
            [.Value (.Number ("1")), .Value (.String ("2")),
             .Value (.Number ("3")), .Value (.String ("4"))]
            false))
        ⟨toks_in_expr, 15⟩ ∧
    parse_in 32 ⟨toks_in_expr, 6⟩ (.Ident ("c2")) false =
      PResult.ok
        (.InList (.Ident ("c2"))
          [.Value (.Number ("1")), .Value (.String ("2")),
           .Value (.Number ("3")), .Value (.String ("4"))]
          false)
        ⟨toks_in_expr, 15⟩ :=
  ⟨rfl, rfl⟩

/-- Modelled from the spec: tokenisation of `c1 not between 0 and 200`. -/
def toks_between_expr : List TokenWithLocation :=
  [⟨.Ident ("c1"), Location.default⟩, ⟨.Keyword .Not, Location.default⟩,
   ⟨.Keyword .Between, Location.default⟩, ⟨.NumberLiteral ("0"), Location.default⟩,
   ⟨.Keyword .And, Location.default⟩, ⟨.NumberLiteral ("200"), Location.default⟩]

/-- C6: parsing `c1 not between 0 and 200` yields a `Between` node with
`negated = true`, `low = Number("0")`, `high = Number("200")` (first
conjunct); the second conjunct runs the `BETWEEN` sub-parser itself
from just after the consumed `BETWEEN` keyword (cursor 3) with the
negation flag: it reads the low bound at precedence 20, requires `AND`
(cursor 4 → 5), reads the high bound at precedence 20 and carries the
flag into the node. -/
theorem c6_not_between_expr :
    parse_expr 32 ⟨toks_between_expr, 0⟩ 0 =
      PResult.ok
        (.Between (.Ident ("c1")) true
          (.Value (.Number ("0"))) (.Value (.Number ("200"))))
        ⟨toks_between_expr, 6⟩ ∧
    parse_between 32 ⟨toks_between_expr, 3⟩ (.Ident ("c1")) true =
      PResult.ok
        (.Between (.Ident ("c1")) true
          (.Value (.Number ("0"))) (.Value (.Number ("200"))))
        ⟨toks_between_expr, 6⟩ :=
  ⟨rfl, rfl⟩

/-- Modelled from the spec: tokenisation of the projection list
`t1.*, *, s1.t1.c1`. -/
def toks_projection : List TokenWithLocation :=
  [⟨.Ident ("t1"), Location.default⟩, ⟨.Dot, Location.default⟩,
   ⟨.Asterisk, Location.default⟩, ⟨.Comma, Location.default⟩,
   ⟨.Asterisk, Location.default⟩, ⟨.Comma, Location.default⟩,
   ⟨.Ident ("s1"), Location.default⟩, ⟨.Dot, Location.default⟩,
   ⟨.Ident ("t1"), Location.default⟩, ⟨.Dot, Location.default⟩,
   ⟨.Ident ("c1"), Location.default⟩]

/-- C7: parsing the projection list `t1.*, *, s1.t1.c1` yields exactly
`[QualifiedWildcard(["t1"]), Wildcard, Expr(CompoundIdent(["s1","t1","c1"]))]`
(first conjunct).  The second conjunct is the third item on its own:
starting at cursor 6, the speculative qualified-wildcard attempt reads
`s1 . t1 . c1`, finds no trailing `*`, resets the cursor to 6 and falls
through to full expression parsing, which consumes the same tokens
again and produces the compound identifier — witnessing that the failed
attempt consumed nothing. -/
theorem c7_projection_backtracking :
    parse_projection 32 ⟨toks_projection, 0⟩ =
      PResult.ok
        [.QualifiedWildcard [("t1")], .Wildcard,
         .Expr (.CompoundIdent [("s1"), ("t1"), ("c1")])]
        ⟨toks_projection, 11⟩ ∧
    parse_select_item 32 ⟨toks_projection, 6⟩ =
      PResult.ok (.Expr (.CompoundIdent [("s1"), ("t1"), ("c1")]))
        ⟨toks_projection, 11⟩ :=
  ⟨rfl, rfl⟩

/-- Modelled from the spec: tokenisation of
`CREATE TABLE t1 (c1 INT, c2 VARCHAR(1024))`. -/
def toks_create : List TokenWithLocation :=
  [⟨.Keyword .Create, Location.default⟩, ⟨.Keyword .Table, Location.default⟩,
   ⟨.Ident ("t1"), Location.default⟩, ⟨.LParen, Location.default⟩,
   ⟨.Ident ("c1"), Location.default⟩, ⟨.Keyword .Int, Location.default⟩,
   ⟨.Comma, Location.default⟩, ⟨.Ident ("c2"), Location.default⟩,
   ⟨.Keyword .Varchar, Location.default⟩, ⟨.LParen, Location.default⟩,
   ⟨.NumberLiteral ("1024"), Location.default⟩, ⟨.RParen, Location.default⟩,
   ⟨.RParen, Location.default⟩]

/-- C8: parsing `CREATE TABLE t1 (c1 INT, c2 VARCHAR(1024))` yields a
single `Create` statement with table name `t1` and exactly the two
columns `(c1, Int)` and `(c2, Varchar(1024))` in declaration order. -/
theorem c8_create_table :
    parse 32 ⟨toks_create, 0⟩ =
      PResult.ok
        [Statement.Create ⟨("t1"), [⟨.Int, ("c1")⟩, ⟨.Varchar 1024, ("c2")⟩]⟩]
        ⟨toks_create, 13⟩ :=
  rfl

/-- Modelled from the spec: tokenisation of the malformed input `(c1`
(a dangling `(` with no matching `)`); columns are character offsets. -/
def toks_dangling : List TokenWithLocation :=
  [⟨.LParen, ⟨0, 0⟩⟩, ⟨.Ident ("c1"), ⟨0, 1⟩⟩]

/-- Modelled from the spec: tokenisation of the malformed input
`CREATE TABLE t1 (c1 VARCHAR(abc))`; columns are character offsets. -/
def toks_varchar_ident : List TokenWithLocation :=
  [⟨.Keyword .Create, ⟨0, 0⟩⟩, ⟨.Keyword .Table, ⟨0, 7⟩⟩,
   ⟨.Ident ("t1"), ⟨0, 13⟩⟩, ⟨.LParen, ⟨0, 16⟩⟩, ⟨.Ident ("c1"), ⟨0, 17⟩⟩,
   ⟨.Keyword .Varchar, ⟨0, 20⟩⟩, ⟨.LParen, ⟨0, 27⟩⟩, ⟨.Ident ("abc"), ⟨0, 28⟩⟩,
   ⟨.RParen, ⟨0, 31⟩⟩, ⟨.RParen, ⟨0, 32⟩⟩]

/-- Modelled from the spec: tokenisation of the malformed input
`CREATE TABLE t1 (c1 VARCHAR(70000))` — the length literal does not
fit in an unsigned 16-bit integer; columns are character offsets. -/
def toks_varchar_large : List TokenWithLocation :=
  [⟨.Keyword .Create, ⟨0, 0⟩⟩, ⟨.Keyword .Table, ⟨0, 7⟩⟩,
   ⟨.Ident ("t1"), ⟨0, 13⟩⟩, ⟨.LParen, ⟨0, 16⟩⟩, ⟨.Ident ("c1"), ⟨0, 17⟩⟩,
   ⟨.Keyword .Varchar, ⟨0, 20⟩⟩, ⟨.LParen, ⟨0, 27⟩⟩,
   ⟨.NumberLiteral ("70000"), ⟨0, 28⟩⟩, ⟨.RParen, ⟨0, 33⟩⟩, ⟨.RParen, ⟨0, 34⟩⟩]

/-- C9: the three malformed inputs — a dangling `(` with no matching
`)`, `VARCHAR(abc)`, and a `VARCHAR` length that does not fit in an
unsigned 16-bit integer — each produce the unexpected-token failure
rendered `"<location>: unexpected token <token>"`; none panics and none
returns a (partial) AST: the result is an `err`, not `panicked` and not
`ok`. -/
theorem c9_malformed_inputs :
    parse_expr 32 ⟨toks_dangling, 0⟩ 0 =
      PResult.err (.Unexpected ("0:0: unexpected token Eof")) ⟨toks_dangling, 3⟩ ∧
    parse 32 ⟨toks_varchar_ident, 0⟩ =
      PResult.err (.Unexpected ("0:28: unexpected token Ident(\"abc\")"))
        ⟨toks_varchar_ident, 8⟩ ∧
    parse 32 ⟨toks_varchar_large, 0⟩ =
      PResult.err (.Unexpected ("0:28: unexpected token NumberLiteral(\"70000\")"))
        ⟨toks_varchar_large, 8⟩ :=
  ⟨rfl, rfl, rfl⟩

end Sqlp
